import Mathlib

/-!
Shallow embedding of the Way-of-SunVox generator scripts
(`basic_house_track.py`, `create_modular_construction.py`,
`8--Techniques/Sidechain-Compression/generate_examples.py`) and of the
Project/Module/Pattern data model they populate through the external
`rv.api` library.  Each script is straight-line code: create a project,
create modules, wire connections, fill pattern cells, write one or more
files.  The embedding reproduces each of those steps as explicit data.
-/

namespace WayOfSunVox

/-- Pitch identifiers used by the scripts (the `NOTE` enum of the library;
only the pitches the scripts mention are listed). -/
inductive NOTE
  | C5 | A2 | A3 | A4 | B3 | C3 | C4 | D4 | E3 | E4 | E5 | F2 | F3 | F5 | G2 | G3 | G4
deriving DecidableEq

/-- Contents of a pattern cell's note field: nothing, a pitch (note-on), or
the explicit NOTECMD.NOTE_OFF command. -/
inductive NoteField
  | empty
  | on (n : NOTE)
  | off
deriving DecidableEq

/-- One pattern cell: note field, velocity (none when never set; the
library's default 0 means "no velocity"), and the 1-based target module
field (0 means "no target", the library default). -/
structure Cell where
  note : NoteField := NoteField.empty
  vel : Option Nat := none
  module : Nat := 0
deriving DecidableEq

def defaultCell : Cell := {}

/-- A pattern: a lines-by-tracks matrix of cells, as created by
`Pattern(name=..., lines=..., tracks=...)`. -/
structure Pattern where
  name : String
  lines : Nat
  tracks : Nat
  data : List (List Cell)
deriving DecidableEq

/-- `Pattern(name, lines, tracks)`: all cells start empty. -/
def Pattern.new (name : String) (lines tracks : Nat) : Pattern :=
  ⟨name, lines, tracks, List.replicate lines (List.replicate tracks defaultCell)⟩

/-- One assignment statement `pattern.data[line][track].field = value`
performed by a script. -/
inductive CellWrite
  | setNote (line track : Nat) (v : NoteField)
  | setVel (line track : Nat) (v : Nat)
  | setModule (line track : Nat) (v : Nat)
deriving DecidableEq

def CellWrite.line : CellWrite → Nat
  | .setNote l _ _ => l
  | .setVel l _ _ => l
  | .setModule l _ _ => l

def CellWrite.track : CellWrite → Nat
  | .setNote _ t _ => t
  | .setVel _ t _ => t
  | .setModule _ t _ => t

/-- Replace the element at position `i` (no-op when out of range; the
scripts only ever write in range, which claim C9 checks). -/
def modifyAt {α : Type} : List α → Nat → (α → α) → List α
  | [], _, _ => []
  | a :: as, 0, f => f a :: as
  | a :: as, n + 1, f => a :: modifyAt as n f

def applyWrite (p : Pattern) (w : CellWrite) : Pattern :=
  match w with
  | .setNote l t v =>
      { p with data := modifyAt p.data l (fun row => modifyAt row t (fun c => { c with note := v })) }
  | .setVel l t v =>
      { p with data := modifyAt p.data l (fun row => modifyAt row t (fun c => { c with vel := some v })) }
  | .setModule l t v =>
      { p with data := modifyAt p.data l (fun row => modifyAt row t (fun c => { c with module := v })) }

def applyWrites (p : Pattern) (ws : List CellWrite) : Pattern :=
  ws.foldl applyWrite p

/-- The module type tags used by the scripts (the `m.*` classes). -/
inductive MType
  | Output | Kicker | DrumSynth | AnalogGenerator | Compressor | Fm
  | Filter | Reverb | Delay | Sound2Ctl | Generator | Amplifier | Lfo
deriving DecidableEq

/- Integer encodings for the library's enum-valued parameters
(arbitrary distinct codes; the scripts pass them by name). -/
namespace Enc
def sin : Int := 0
def saw : Int := 1
def triangle : Int := 2
def noise : Int := 3
def lp_12db : Int := 10
def lp : Int := 20
def hp : Int := 21
def peak : Int := 30
def stereo : Int := 40
end Enc

/-- A typed module node: type tag, name, the keyword parameters passed at
creation (booleans as 0/1, enums via `Enc`, colors split into three
components), and the creation-time index. -/
structure Module where
  mtype : MType
  name : String
  params : List (String × Int)
  index : Nat
deriving DecidableEq

/-- A project under construction.  `Project()` starts with the Output sink
module at index 0; connections are directed edges between module indices. -/
structure Project where
  name : String := ""
  initial_bpm : Nat := 125
  initial_tpl : Nat := 6
  sunvox_version : Nat × Nat × Nat × Nat := (2, 0, 0, 0)
  based_on_version : Nat × Nat × Nat × Nat := (2, 0, 0, 0)
  modules : List Module := [⟨MType.Output, "Output", [], 0⟩]
  conns : List (Nat × Nat) := []
  patterns : List Pattern := []
deriving DecidableEq

/-- Modelled from the spec: `new_module` lives in the external `rv`
library; per spec section 3 a module gets "a stable integer index assigned
at creation and never reused".  The index is the creation position, with
the Output sink occupying index 0. -/
def Project.new_module (p : Project) (t : MType) (nm : String)
    (ps : List (String × Int)) : Module × Project :=
  let mo : Module := ⟨t, nm, ps, p.modules.length⟩
  (mo, { p with modules := p.modules ++ [mo] })

/-- The `a >> b` connection operator: appends the directed edge
(a.index, b.index). -/
def Project.connect (p : Project) (src dst : Nat) : Project :=
  { p with conns := p.conns ++ [(src, dst)] }

def Project.connectAll (p : Project) (es : List (Nat × Nat)) : Project :=
  es.foldl (fun q e => q.connect e.1 e.2) p

def Project.attach_pattern (p : Project) (pat : Pattern) : Project :=
  { p with patterns := p.patterns ++ [pat] }

def Project.attachAll (p : Project) (pats : List Pattern) : Project :=
  pats.foldl Project.attach_pattern p

/-! ### `basic_house_track.py` -/

namespace BH

def p0 : Project := { name := "Basic House Track", initial_bpm := 125, initial_tpl := 6 }

def kickS := p0.new_module MType.Kicker "Kick"
  [("vol", 256), ("boost", 200), ("release", 100), ("x", 256), ("y", 128),
   ("color_r", 255), ("color_g", 80), ("color_b", 80)]
def kick : Module := kickS.1
def p1 : Project := kickS.2

def drumsS := p1.new_module MType.DrumSynth "Drums"
  [("bass_volume", 0), ("hihat_volume", 220), ("snare_volume", 180), ("x", 384), ("y", 128),
   ("color_r", 255), ("color_g", 200), ("color_b", 80)]
def drums : Module := drumsS.1
def p2 : Project := drumsS.2

def clapS := p2.new_module MType.DrumSynth "Clap"
  [("bass_volume", 0), ("hihat_volume", 0), ("snare_volume", 200), ("snare_panning", 0),
   ("x", 512), ("y", 128), ("color_r", 200), ("color_g", 255), ("color_b", 80)]
def clap : Module := clapS.1
def p3 : Project := clapS.2

def bassS := p3.new_module MType.AnalogGenerator "Sub Bass"
  [("waveform", Enc.sin), ("volume", 220), ("attack", 5), ("release", 150), ("sustain", 1),
   ("filter", Enc.lp_12db), ("filter_cutoff", 100), ("x", 256), ("y", 256),
   ("color_r", 80), ("color_g", 120), ("color_b", 255)]
def bass : Module := bassS.1
def p4 : Project := bassS.2

def bass_compS := p4.new_module MType.Compressor "Bass Comp"
  [("volume", 256), ("threshold", 180), ("slope", 0), ("attack", 5), ("release", 100),
   ("x", 384), ("y", 256), ("color_r", 100), ("color_g", 150), ("color_b", 255)]
def bass_comp : Module := bass_compS.1
def p5 : Project := bass_compS.2

def chordsS := p5.new_module MType.Fm "Chords"
  [("c_volume", 180), ("m_volume", 120), ("c_freq_ratio", 1), ("m_freq_ratio", 2),
   ("attack", 150), ("release", 200), ("sustain", 1), ("x", 256), ("y", 384),
   ("color_r", 180), ("color_g", 120), ("color_b", 255)]
def chords : Module := chordsS.1
def p6 : Project := chordsS.2

def chord_filterS := p6.new_module MType.Filter "Chord Filter"
  [("type", Enc.lp), ("freq", 180), ("resonance", 100), ("x", 384), ("y", 384),
   ("color_r", 200), ("color_g", 140), ("color_b", 255)]
def chord_filter : Module := chord_filterS.1
def p7 : Project := chord_filterS.2

def chord_reverbS := p7.new_module MType.Reverb "Chord Reverb"
  [("volume", 256), ("dryout", 180), ("wetout", 100), ("x", 512), ("y", 384),
   ("color_r", 220), ("color_g", 160), ("color_b", 255)]
def chord_reverb : Module := chord_reverbS.1
def p8 : Project := chord_reverbS.2

def leadS := p8.new_module MType.AnalogGenerator "Lead"
  [("waveform", Enc.saw), ("volume", 160), ("attack", 50), ("release", 180), ("sustain", 1),
   ("filter", Enc.lp_12db), ("filter_cutoff", 200), ("x", 256), ("y", 512),
   ("color_r", 255), ("color_g", 180), ("color_b", 100)]
def lead : Module := leadS.1
def p9 : Project := leadS.2

def lead_delayS := p9.new_module MType.Delay "Lead Delay"
  [("volume", 256), ("delay_l", 6), ("delay_r", 6), ("channels", Enc.stereo),
   ("x", 384), ("y", 512), ("color_r", 255), ("color_g", 200), ("color_b", 120)]
def lead_delay : Module := lead_delayS.1
def p10 : Project := lead_delayS.2

def master_compS := p10.new_module MType.Compressor "Master Comp"
  [("volume", 256), ("threshold", 190), ("slope", 0), ("attack", 10), ("release", 150),
   ("x", 640), ("y", 300), ("color_r", 255), ("color_g", 255), ("color_b", 100)]
def master_comp : Module := master_compS.1
def p11 : Project := master_compS.2

/-- The `>>` connection statements of the script, in order. -/
def pc : Project := p11.connectAll
  [(kick.index, master_comp.index), (drums.index, master_comp.index),
   (clap.index, master_comp.index),
   (bass.index, bass_comp.index), (bass_comp.index, master_comp.index),
   (chords.index, chord_filter.index), (chord_filter.index, chord_reverb.index),
   (chord_reverb.index, master_comp.index),
   (lead.index, lead_delay.index), (lead_delay.index, master_comp.index),
   (master_comp.index, 0)]

def kick_pattern_writes : List CellWrite :=
  ([0, 8, 16, 24].map fun line =>
    [CellWrite.setNote line 0 (NoteField.on NOTE.C5), CellWrite.setVel line 0 120,
     CellWrite.setModule line 0 (kick.index + 1)]).flatten

def kick_pattern : Pattern := applyWrites (Pattern.new "Kick" 32 1) kick_pattern_writes

/-- Closed hats on `range(0, 32, 4)`, then open hats on the offbeats. -/
def hihat_pattern_writes : List CellWrite :=
  (((List.range 8).map fun k => 4 * k).map fun line =>
    [CellWrite.setNote line 0 (NoteField.on NOTE.C5), CellWrite.setVel line 0 90,
     CellWrite.setModule line 0 (drums.index + 1)]).flatten ++
  ([6, 14, 22, 30].map fun line =>
    [CellWrite.setNote line 0 (NoteField.on NOTE.C5), CellWrite.setVel line 0 110,
     CellWrite.setModule line 0 (drums.index + 1)]).flatten

def hihat_pattern : Pattern := applyWrites (Pattern.new "Hihats" 32 1) hihat_pattern_writes

def clap_pattern_writes : List CellWrite :=
  ([8, 24].map fun line =>
    [CellWrite.setNote line 0 (NoteField.on NOTE.C5), CellWrite.setVel line 0 100,
     CellWrite.setModule line 0 (clap.index + 1)]).flatten

def clap_pattern : Pattern := applyWrites (Pattern.new "Claps" 32 1) clap_pattern_writes

/-- One bass note: note-on at `l0`, note-off at `l0 + 14`. -/
def bassNoteWrites (l0 : Nat) (n : NOTE) : List CellWrite :=
  [CellWrite.setNote l0 0 (NoteField.on n), CellWrite.setVel l0 0 100,
   CellWrite.setModule l0 0 (bass.index + 1),
   CellWrite.setNote (l0 + 14) 0 NoteField.off,
   CellWrite.setModule (l0 + 14) 0 (bass.index + 1)]

def bass_pattern_writes : List CellWrite :=
  bassNoteWrites 0 NOTE.A2 ++ bassNoteWrites 16 NOTE.A2 ++
  bassNoteWrites 32 NOTE.F2 ++ bassNoteWrites 48 NOTE.F2 ++
  bassNoteWrites 64 NOTE.C3 ++ bassNoteWrites 80 NOTE.C3 ++
  bassNoteWrites 96 NOTE.G2 ++ bassNoteWrites 112 NOTE.G2

def bass_pattern : Pattern := applyWrites (Pattern.new "Bassline" 128 1) bass_pattern_writes

/-- One three-track chord at line `l0`. -/
def chordWrites (l0 : Nat) (n0 n1 n2 : NOTE) : List CellWrite :=
  [CellWrite.setNote l0 0 (NoteField.on n0), CellWrite.setVel l0 0 80,
   CellWrite.setModule l0 0 (chords.index + 1),
   CellWrite.setNote l0 1 (NoteField.on n1), CellWrite.setVel l0 1 75,
   CellWrite.setModule l0 1 (chords.index + 1),
   CellWrite.setNote l0 2 (NoteField.on n2), CellWrite.setVel l0 2 75,
   CellWrite.setModule l0 2 (chords.index + 1)]

def chord_pattern_writes : List CellWrite :=
  chordWrites 0 NOTE.A3 NOTE.C4 NOTE.E4 ++ chordWrites 32 NOTE.F3 NOTE.A3 NOTE.C4 ++
  chordWrites 64 NOTE.C4 NOTE.E4 NOTE.G4 ++ chordWrites 96 NOTE.G3 NOTE.B3 NOTE.D4

def chord_pattern : Pattern := applyWrites (Pattern.new "Chords" 128 3) chord_pattern_writes

def melody_notes : List (Nat × NOTE × Nat) :=
  [(0, NOTE.E5, 90), (8, NOTE.C5, 85), (16, NOTE.A4, 90), (24, NOTE.C5, 85),
   (32, NOTE.F5, 90), (40, NOTE.E5, 85), (48, NOTE.C5, 90), (56, NOTE.A4, 85)]

def lead_pattern_writes : List CellWrite :=
  (melody_notes.map fun e =>
    [CellWrite.setNote e.1 0 (NoteField.on e.2.1), CellWrite.setVel e.1 0 e.2.2,
     CellWrite.setModule e.1 0 (lead.index + 1)] ++
    (if e.1 + 6 < 64 then
      [CellWrite.setNote (e.1 + 6) 0 NoteField.off,
       CellWrite.setModule (e.1 + 6) 0 (lead.index + 1)]
     else [])).flatten

def lead_pattern : Pattern := applyWrites (Pattern.new "Lead Melody" 64 1) lead_pattern_writes

def intro_kick_writes : List CellWrite :=
  ([0, 8, 16, 24].map fun line =>
    [CellWrite.setNote line 0 (NoteField.on NOTE.C5), CellWrite.setVel line 0 100,
     CellWrite.setModule line 0 (kick.index + 1)]).flatten

def intro_kick : Pattern := applyWrites (Pattern.new "Intro Kick" 32 1) intro_kick_writes

/-- The finished project written to `basic_house_track.sunvox`. -/
def proj : Project := pc.attachAll
  [kick_pattern, hihat_pattern, clap_pattern, bass_pattern, chord_pattern,
   lead_pattern, intro_kick]

end BH

/-! ### `8--Techniques/Sidechain-Compression/generate_examples.py` -/

/-! Example 1: Basic EDM Kick-to-Bass Sidechain -/

namespace GE1

def p0 : Project :=
  { name := "Sidechain - Basic EDM", initial_bpm := 128, initial_tpl := 6,
    sunvox_version := (1, 9, 3, 1), based_on_version := (1, 9, 3, 1) }

def kickS := p0.new_module MType.Kicker "Kick"
  [("vol", 256), ("boost", 256), ("x", 256), ("y", 256),
   ("color_r", 255), ("color_g", 80), ("color_b", 80)]
def kick : Module := kickS.1
def p1 : Project := kickS.2

def bassS := p1.new_module MType.AnalogGenerator "Bass"
  [("waveform", Enc.saw), ("volume", 192), ("attack", 0), ("release", 200), ("sustain", 1),
   ("x", 512), ("y", 128), ("color_r", 80), ("color_g", 180), ("color_b", 255)]
def bass : Module := bassS.1
def p2 : Project := bassS.2

def compS := p2.new_module MType.Compressor "Sidechain Comp"
  [("volume", 256), ("threshold", 154), ("slope", 0), ("attack", 1), ("release", 100),
   ("mode", Enc.peak), ("x", 640), ("y", 128), ("color_r", 80), ("color_g", 255), ("color_b", 180)]
def comp : Module := compS.1
def p3 : Project := compS.2

def s2cS := p3.new_module MType.Sound2Ctl "SC Trigger"
  [("absolute", 1), ("gain", 200), ("smooth", 10), ("sample_rate_hz", 100),
   ("channels", Enc.stereo), ("x", 384), ("y", 256),
   ("color_r", 255), ("color_g", 200), ("color_b", 80)]
def s2c : Module := s2cS.1
def p4 : Project := s2cS.2

/-- `bass >> comp >> p1.output`, `kick >> p1.output`, `kick >> s2c`. -/
def pc : Project := p4.connectAll
  [(bass.index, comp.index), (comp.index, 0), (kick.index, 0), (kick.index, s2c.index)]

def kick_pattern_writes : List CellWrite :=
  ([0, 8, 16, 24].map fun line =>
    [CellWrite.setNote line 0 (NoteField.on NOTE.C5), CellWrite.setVel line 0 128,
     CellWrite.setModule line 0 (kick.index + 1)]).flatten

def kick_pattern : Pattern := applyWrites (Pattern.new "Kick" 32 1) kick_pattern_writes

def bass_pattern_writes : List CellWrite :=
  [CellWrite.setNote 0 0 (NoteField.on NOTE.C3), CellWrite.setVel 0 0 100,
   CellWrite.setModule 0 0 (bass.index + 1),
   CellWrite.setNote 30 0 NoteField.off, CellWrite.setModule 30 0 (bass.index + 1)]

def bass_pattern : Pattern := applyWrites (Pattern.new "Bass" 32 1) bass_pattern_writes

/-- The project written to `sidechain_basic_edm.sunvox`. -/
def proj : Project := pc.attachAll [kick_pattern, bass_pattern]

end GE1

/-! Example 2: Vocal Clarity (Subtle Sidechain) -/

namespace GE2

def p0 : Project :=
  { name := "Sidechain - Vocal Clarity", initial_bpm := 90, initial_tpl := 6,
    sunvox_version := (1, 9, 3, 1), based_on_version := (1, 9, 3, 1) }

def vocal_triggerS := p0.new_module MType.Kicker "Vocal Trigger"
  [("vol", 0), ("x", 256), ("y", 256), ("color_r", 255), ("color_g", 180), ("color_b", 255)]
def vocal_trigger : Module := vocal_triggerS.1
def p1 : Project := vocal_triggerS.2

def padS := p1.new_module MType.AnalogGenerator "Music Pad"
  [("waveform", Enc.saw), ("volume", 180), ("attack", 200), ("release", 256), ("sustain", 1),
   ("filter", Enc.lp_12db), ("filter_cutoff", 180), ("x", 512), ("y", 128),
   ("color_r", 150), ("color_g", 120), ("color_b", 255)]
def pad : Module := padS.1
def p2 : Project := padS.2

def subtle_compS := p2.new_module MType.Compressor "Gentle Duck"
  [("volume", 256), ("threshold", 180), ("slope", 0), ("attack", 8), ("release", 200),
   ("mode", Enc.peak), ("x", 640), ("y", 128), ("color_r", 80), ("color_g", 255), ("color_b", 180)]
def subtle_comp : Module := subtle_compS.1
def p3 : Project := subtle_compS.2

def s2c_vocalS := p3.new_module MType.Sound2Ctl "Vocal SC"
  [("absolute", 1), ("gain", 120), ("smooth", 30), ("x", 384), ("y", 256),
   ("color_r", 255), ("color_g", 200), ("color_b", 80)]
def s2c_vocal : Module := s2c_vocalS.1
def p4 : Project := s2c_vocalS.2

/-- `pad >> subtle_comp >> p2.output`, `vocal_trigger >> s2c_vocal`. -/
def pc : Project := p4.connectAll
  [(pad.index, subtle_comp.index), (subtle_comp.index, 0),
   (vocal_trigger.index, s2c_vocal.index)]

def trigger_pattern_writes : List CellWrite :=
  ([0, 16, 32, 48].map fun line =>
    [CellWrite.setNote line 0 (NoteField.on NOTE.C5), CellWrite.setVel line 0 80,
     CellWrite.setModule line 0 (vocal_trigger.index + 1)]).flatten

def trigger_pattern : Pattern := applyWrites (Pattern.new "Vocal Timing" 64 1) trigger_pattern_writes

def pad_pattern_writes : List CellWrite :=
  [CellWrite.setNote 0 0 (NoteField.on NOTE.C4), CellWrite.setVel 0 0 80,
   CellWrite.setModule 0 0 (pad.index + 1)]

def pad_pattern : Pattern := applyWrites (Pattern.new "Pad" 64 1) pad_pattern_writes

/-- The project written to `sidechain_vocal_clarity.sunvox`. -/
def proj : Project := pc.attachAll [trigger_pattern, pad_pattern]

end GE2

/-! Example 3: Rhythmic Gating (Extreme Sidechain) -/

namespace GE3

def p0 : Project :=
  { name := "Sidechain - Rhythmic Gate", initial_bpm := 140, initial_tpl := 6 }

def hihatS := p0.new_module MType.DrumSynth "HiHat Trigger"
  [("vol", 128), ("bass_panning", -128), ("hihat_volume", 256), ("x", 256), ("y", 256),
   ("color_r", 255), ("color_g", 255), ("color_b", 80)]
def hihat : Module := hihatS.1
def p1 : Project := hihatS.2

def gate_padS := p1.new_module MType.AnalogGenerator "Gated Pad"
  [("waveform", Enc.triangle), ("volume", 200), ("attack", 0), ("release", 256), ("sustain", 1),
   ("x", 512), ("y", 128), ("color_r", 255), ("color_g", 120), ("color_b", 200)]
def gate_pad : Module := gate_padS.1
def p2 : Project := gate_padS.2

def gate_compS := p2.new_module MType.Compressor "Gate Comp"
  [("volume", 256), ("threshold", 100), ("slope", 0), ("attack", 0), ("release", 20),
   ("mode", Enc.peak), ("x", 640), ("y", 128), ("color_r", 255), ("color_g", 80), ("color_b", 80)]
def gate_comp : Module := gate_compS.1
def p3 : Project := gate_compS.2

def s2c_gateS := p3.new_module MType.Sound2Ctl "Gate Trigger"
  [("absolute", 1), ("gain", 255), ("smooth", 0), ("x", 384), ("y", 256),
   ("color_r", 255), ("color_g", 200), ("color_b", 80)]
def s2c_gate : Module := s2c_gateS.1
def p4 : Project := s2c_gateS.2

/-- `gate_pad >> gate_comp >> p3.output`, `hihat >> p3.output`, `hihat >> s2c_gate`. -/
def pc : Project := p4.connectAll
  [(gate_pad.index, gate_comp.index), (gate_comp.index, 0),
   (hihat.index, 0), (hihat.index, s2c_gate.index)]

/-- 16th-note hi-hats on `range(0, 16, 2)`. -/
def hihat_pattern_writes : List CellWrite :=
  (((List.range 8).map fun k => 2 * k).map fun line =>
    [CellWrite.setNote line 0 (NoteField.on NOTE.C5), CellWrite.setVel line 0 100,
     CellWrite.setModule line 0 (hihat.index + 1)]).flatten

def hihat_pattern : Pattern := applyWrites (Pattern.new "HiHat" 16 1) hihat_pattern_writes

def gatepad_pattern_writes : List CellWrite :=
  [CellWrite.setNote 0 0 (NoteField.on NOTE.E3), CellWrite.setVel 0 0 100,
   CellWrite.setModule 0 0 (gate_pad.index + 1)]

def gatepad_pattern : Pattern := applyWrites (Pattern.new "Pad" 16 1) gatepad_pattern_writes

/-- The project written to `sidechain_rhythmic_gate.sunvox`. -/
def proj : Project := pc.attachAll [hihat_pattern, gatepad_pattern]

end GE3

/-! Example 4: Multi-Band Sidechain -/

namespace GE4

def p0 : Project :=
  { name := "Sidechain - Multi-Band", initial_bpm := 120, initial_tpl := 6 }

def mb_kickS := p0.new_module MType.Kicker "Kick"
  [("vol", 256), ("x", 256), ("y", 384), ("color_r", 255), ("color_g", 80), ("color_b", 80)]
def mb_kick : Module := mb_kickS.1
def p1 : Project := mb_kickS.2

def rich_padS := p1.new_module MType.AnalogGenerator "Rich Pad"
  [("waveform", Enc.saw), ("volume", 180), ("attack", 150), ("release", 250), ("sustain", 1),
   ("x", 256), ("y", 128), ("color_r", 180), ("color_g", 140), ("color_b", 255)]
def rich_pad : Module := rich_padS.1
def p2 : Project := rich_padS.2

def lowband_filterS := p2.new_module MType.Filter "Low Band"
  [("type", Enc.lp), ("freq", 300), ("resonance", 0), ("x", 384), ("y", 64),
   ("color_r", 255), ("color_g", 100), ("color_b", 100)]
def lowband_filter : Module := lowband_filterS.1
def p3 : Project := lowband_filterS.2

def highband_filterS := p3.new_module MType.Filter "High Band"
  [("type", Enc.hp), ("freq", 300), ("resonance", 0), ("x", 384), ("y", 192),
   ("color_r", 100), ("color_g", 200), ("color_b", 255)]
def highband_filter : Module := highband_filterS.1
def p4 : Project := highband_filterS.2

def lowband_compS := p4.new_module MType.Compressor "Low Band Comp"
  [("volume", 256), ("threshold", 160), ("slope", 0), ("attack", 1), ("release", 120),
   ("x", 512), ("y", 64), ("color_r", 80), ("color_g", 255), ("color_b", 180)]
def lowband_comp : Module := lowband_compS.1
def p5 : Project := lowband_compS.2

def s2c_mbS := p5.new_module MType.Sound2Ctl "SC Trigger"
  [("absolute", 1), ("gain", 180), ("x", 384), ("y", 384),
   ("color_r", 255), ("color_g", 200), ("color_b", 80)]
def s2c_mb : Module := s2c_mbS.1
def p6 : Project := s2c_mbS.2

/-- `rich_pad >> lowband_filter >> lowband_comp >> p4.output`,
`rich_pad >> highband_filter >> p4.output`, `mb_kick >> p4.output`,
`mb_kick >> s2c_mb`. -/
def pc : Project := p6.connectAll
  [(rich_pad.index, lowband_filter.index), (lowband_filter.index, lowband_comp.index),
   (lowband_comp.index, 0),
   (rich_pad.index, highband_filter.index), (highband_filter.index, 0),
   (mb_kick.index, 0), (mb_kick.index, s2c_mb.index)]

def mb_kick_pattern_writes : List CellWrite :=
  ([0, 8, 16, 24].map fun line =>
    [CellWrite.setNote line 0 (NoteField.on NOTE.C5), CellWrite.setVel line 0 120,
     CellWrite.setModule line 0 (mb_kick.index + 1)]).flatten

def mb_kick_pattern : Pattern := applyWrites (Pattern.new "Kick" 32 1) mb_kick_pattern_writes

def mb_pad_pattern_writes : List CellWrite :=
  [CellWrite.setNote 0 0 (NoteField.on NOTE.A3), CellWrite.setVel 0 0 90,
   CellWrite.setModule 0 0 (rich_pad.index + 1)]

def mb_pad_pattern : Pattern := applyWrites (Pattern.new "Pad" 32 1) mb_pad_pattern_writes

/-- The project written to `sidechain_multiband.sunvox`. -/
def proj : Project := pc.attachAll [mb_kick_pattern, mb_pad_pattern]

end GE4

/-! Example 5: Inverse Sidechain (Swelling) -/

namespace GE5

def p0 : Project :=
  { name := "Sidechain - Inverse Swell", initial_bpm := 128, initial_tpl := 6 }

def inv_kickS := p0.new_module MType.Kicker "Kick"
  [("vol", 256), ("x", 256), ("y", 256), ("color_r", 255), ("color_g", 80), ("color_b", 80)]
def inv_kick : Module := inv_kickS.1
def p1 : Project := inv_kickS.2

def noiseS := p1.new_module MType.Generator "Noise"
  [("volume", 160), ("waveform", Enc.noise), ("x", 512), ("y", 128),
   ("color_r", 200), ("color_g", 200), ("color_b", 200)]
def noise : Module := noiseS.1
def p2 : Project := noiseS.2

def ampS := p2.new_module MType.Amplifier "Swell Amp"
  [("volume", 80), ("inverse", 0), ("x", 640), ("y", 128),
   ("color_r", 255), ("color_g", 180), ("color_b", 80)]
def amp : Module := ampS.1
def p3 : Project := ampS.2

def s2c_invS := p3.new_module MType.Sound2Ctl "Swell Trigger"
  [("absolute", 1), ("gain", 200), ("smooth", 50), ("x", 384), ("y", 256),
   ("color_r", 255), ("color_g", 200), ("color_b", 80)]
def s2c_inv : Module := s2c_invS.1
def p4 : Project := s2c_invS.2

/-- `noise >> amp >> p5.output`, `inv_kick >> p5.output`, `inv_kick >> s2c_inv`. -/
def pc : Project := p4.connectAll
  [(noise.index, amp.index), (amp.index, 0), (inv_kick.index, 0),
   (inv_kick.index, s2c_inv.index)]

def inv_kick_pattern_writes : List CellWrite :=
  ([0, 8, 16, 24].map fun line =>
    [CellWrite.setNote line 0 (NoteField.on NOTE.C5), CellWrite.setVel line 0 128,
     CellWrite.setModule line 0 (inv_kick.index + 1)]).flatten

def inv_kick_pattern : Pattern := applyWrites (Pattern.new "Kick" 32 1) inv_kick_pattern_writes

/-- The project written to `sidechain_inverse.sunvox`. -/
def proj : Project := pc.attachAll [inv_kick_pattern]

end GE5

/-! Example 6: LFO Fake Sidechain -/

namespace GE6

def p0 : Project :=
  { name := "Sidechain - LFO Fake", initial_bpm := 128, initial_tpl := 6 }

def lfo_bassS := p0.new_module MType.AnalogGenerator "Bass"
  [("waveform", Enc.saw), ("volume", 200), ("attack", 0), ("release", 256), ("sustain", 1),
   ("x", 384), ("y", 128), ("color_r", 80), ("color_g", 180), ("color_b", 255)]
def lfo_bass : Module := lfo_bassS.1
def p1 : Project := lfo_bassS.2

def lfoS := p1.new_module MType.Lfo "Pump LFO"
  [("volume", 256), ("waveform", Enc.saw), ("freq", 128), ("duty_cycle", 64),
   ("generator", 0), ("x", 256), ("y", 128),
   ("color_r", 255), ("color_g", 220), ("color_b", 80)]
def lfo : Module := lfoS.1
def p2 : Project := lfoS.2

def lfo_ampS := p2.new_module MType.Amplifier "LFO Pump"
  [("volume", 256), ("x", 512), ("y", 128),
   ("color_r", 180), ("color_g", 255), ("color_b", 180)]
def lfo_amp : Module := lfo_ampS.1
def p3 : Project := lfo_ampS.2

/-- `lfo >> lfo_bass`, `lfo_bass >> lfo_amp >> p6.output`. -/
def pc : Project := p3.connectAll
  [(lfo.index, lfo_bass.index), (lfo_bass.index, lfo_amp.index), (lfo_amp.index, 0)]

def lfo_bass_pattern_writes : List CellWrite :=
  [CellWrite.setNote 0 0 (NoteField.on NOTE.C3), CellWrite.setVel 0 0 100,
   CellWrite.setModule 0 0 (lfo_bass.index + 1)]

def lfo_bass_pattern : Pattern := applyWrites (Pattern.new "Bass" 32 1) lfo_bass_pattern_writes

/-- The project written to `sidechain_lfo_fake.sunvox`. -/
def proj : Project := pc.attachAll [lfo_bass_pattern]

end GE6

/-! ### `create_modular_construction.py` -/

/-! Layer 1a: kick drum building block -/

namespace CM1

def p0 : Project := { name := "Kick Module" }

def kickS := p0.new_module MType.Kicker "Kick"
  [("vol", 256), ("boost", 220), ("release", 100), ("x", 256), ("y", 256),
   ("color_r", 255), ("color_g", 80), ("color_b", 80)]
def kick : Module := kickS.1
def p1 : Project := kickS.2

def kick_compS := p1.new_module MType.Compressor "Kick Comp"
  [("volume", 256), ("threshold", 170), ("slope", 0), ("attack", 1), ("release", 80),
   ("x", 384), ("y", 256), ("color_r", 255), ("color_g", 120), ("color_b", 120)]
def kick_comp : Module := kick_compS.1
def p2 : Project := kick_compS.2

/-- `kick >> kick_comp >> kick_module.output`. -/
def pc : Project := p2.connectAll [(kick.index, kick_comp.index), (kick_comp.index, 0)]

def kick_pattern_writes : List CellWrite :=
  ([0, 8, 16, 24].map fun line =>
    [CellWrite.setNote line 0 (NoteField.on NOTE.C5), CellWrite.setVel line 0 120,
     CellWrite.setModule line 0 (kick.index + 1)]).flatten

def kick_pattern : Pattern := applyWrites (Pattern.new "Four on Floor" 32 1) kick_pattern_writes

/-- The project written to `layer1_kick.sunvox`. -/
def proj : Project := pc.attachAll [kick_pattern]

end CM1

/-! Layer 1b: bass synth building block -/

namespace CM2

def p0 : Project := { name := "Bass Module" }

def bassS := p0.new_module MType.AnalogGenerator "Sub Bass"
  [("waveform", Enc.sin), ("volume", 220), ("attack", 5), ("release", 150), ("sustain", 1),
   ("filter", Enc.lp_12db), ("filter_cutoff", 100), ("x", 256), ("y", 256),
   ("color_r", 80), ("color_g", 120), ("color_b", 255)]
def bass : Module := bassS.1
def p1 : Project := bassS.2

def bass_filterS := p1.new_module MType.Filter "Bass Filter"
  [("type", Enc.lp), ("freq", 120), ("resonance", 80), ("x", 384), ("y", 256),
   ("color_r", 120), ("color_g", 160), ("color_b", 255)]
def bass_filter : Module := bass_filterS.1
def p2 : Project := bass_filterS.2

/-- `bass >> bass_filter >> bass_module.output`. -/
def pc : Project := p2.connectAll [(bass.index, bass_filter.index), (bass_filter.index, 0)]

def bass_pattern_writes : List CellWrite :=
  [CellWrite.setNote 0 0 (NoteField.on NOTE.A2), CellWrite.setVel 0 0 100,
   CellWrite.setModule 0 0 (bass.index + 1),
   CellWrite.setNote 30 0 NoteField.off, CellWrite.setModule 30 0 (bass.index + 1)]

def bass_pattern : Pattern := applyWrites (Pattern.new "Bass A" 32 1) bass_pattern_writes

/-- The project written to `layer1_bass.sunvox`. -/
def proj : Project := pc.attachAll [bass_pattern]

end CM2

/-! Layer 1c: chord synth building block -/

namespace CM3

def p0 : Project := { name := "Chord Module" }

def chord_synthS := p0.new_module MType.Fm "FM Chords"
  [("c_volume", 180), ("m_volume", 100), ("c_freq_ratio", 1), ("m_freq_ratio", 2),
   ("attack", 120), ("release", 180), ("sustain", 1), ("x", 256), ("y", 256),
   ("color_r", 180), ("color_g", 120), ("color_b", 255)]
def chord_synth : Module := chord_synthS.1
def p1 : Project := chord_synthS.2

def chord_reverbS := p1.new_module MType.Reverb "Reverb"
  [("volume", 256), ("dryout", 200), ("wetout", 80), ("x", 384), ("y", 256),
   ("color_r", 200), ("color_g", 140), ("color_b", 255)]
def chord_reverb : Module := chord_reverbS.1
def p2 : Project := chord_reverbS.2

/-- `chord_synth >> chord_reverb >> chord_module.output`. -/
def pc : Project := p2.connectAll
  [(chord_synth.index, chord_reverb.index), (chord_reverb.index, 0)]

def chord_pattern_writes : List CellWrite :=
  [CellWrite.setNote 0 0 (NoteField.on NOTE.A3), CellWrite.setVel 0 0 80,
   CellWrite.setModule 0 0 (chord_synth.index + 1),
   CellWrite.setNote 0 1 (NoteField.on NOTE.C4), CellWrite.setVel 0 1 75,
   CellWrite.setModule 0 1 (chord_synth.index + 1),
   CellWrite.setNote 0 2 (NoteField.on NOTE.E4), CellWrite.setVel 0 2 75,
   CellWrite.setModule 0 2 (chord_synth.index + 1)]

def chord_pattern : Pattern := applyWrites (Pattern.new "Am Chord" 32 3) chord_pattern_writes

/-- The project written to `layer1_chords.sunvox`. -/
def proj : Project := pc.attachAll [chord_pattern]

end CM3

/-! Layer 1d: hi-hat building block -/

namespace CM4

def p0 : Project := { name := "HiHat Module" }

def hihatS := p0.new_module MType.DrumSynth "HiHats"
  [("bass_volume", 0), ("hihat_volume", 220), ("snare_volume", 0), ("x", 256), ("y", 256),
   ("color_r", 255), ("color_g", 220), ("color_b", 100)]
def hihat : Module := hihatS.1
def p1 : Project := hihatS.2

/-- `hihat >> hihat_module.output`. -/
def pc : Project := p1.connectAll [(hihat.index, 0)]

/-- 8th-note hats on `range(0, 32, 4)`. -/
def hihat_pattern_writes : List CellWrite :=
  (((List.range 8).map fun k => 4 * k).map fun line =>
    [CellWrite.setNote line 0 (NoteField.on NOTE.C5), CellWrite.setVel line 0 85,
     CellWrite.setModule line 0 (hihat.index + 1)]).flatten

def hihat_pattern : Pattern := applyWrites (Pattern.new "Hats 8th" 32 1) hihat_pattern_writes

/-- The project written to `layer1_hihat.sunvox`. -/
def proj : Project := pc.attachAll [hihat_pattern]

end CM4

/-! Layer 2a: rhythm section -/

namespace CM5

def p0 : Project := { name := "Rhythm Section", initial_bpm := 125 }

def kick_metaS := p0.new_module MType.Kicker "KICK (Load layer1_kick.sunvox here)"
  [("vol", 256), ("boost", 220), ("x", 256), ("y", 200),
   ("color_r", 255), ("color_g", 100), ("color_b", 100)]
def kick_meta : Module := kick_metaS.1
def p1 : Project := kick_metaS.2

def hihat_metaS := p1.new_module MType.DrumSynth "HIHAT (Load layer1_hihat.sunvox here)"
  [("bass_volume", 0), ("hihat_volume", 220), ("snare_volume", 0), ("x", 256), ("y", 320),
   ("color_r", 255), ("color_g", 220), ("color_b", 100)]
def hihat_meta : Module := hihat_metaS.1
def p2 : Project := hihat_metaS.2

def rhythm_mixS := p2.new_module MType.Amplifier "Rhythm Mix"
  [("volume", 256), ("x", 450), ("y", 260),
   ("color_r", 200), ("color_g", 200), ("color_b", 200)]
def rhythm_mix : Module := rhythm_mixS.1
def p3 : Project := rhythm_mixS.2

/-- `kick_meta >> rhythm_mix >> output`, then `hihat_meta >> rhythm_mix >> output`
(the second chain re-adds the mix-to-output edge, as the script does). -/
def pc : Project := p3.connectAll
  [(kick_meta.index, rhythm_mix.index), (rhythm_mix.index, 0),
   (hihat_meta.index, rhythm_mix.index), (rhythm_mix.index, 0)]

def kick_pat_writes : List CellWrite :=
  ([0, 8, 16, 24].map fun line =>
    [CellWrite.setNote line 0 (NoteField.on NOTE.C5), CellWrite.setVel line 0 120,
     CellWrite.setModule line 0 (kick_meta.index + 1)]).flatten

def kick_pat : Pattern := applyWrites (Pattern.new "Kick Pattern" 32 1) kick_pat_writes

def hihat_pat_writes : List CellWrite :=
  (((List.range 8).map fun k => 4 * k).map fun line =>
    [CellWrite.setNote line 0 (NoteField.on NOTE.C5), CellWrite.setVel line 0 85,
     CellWrite.setModule line 0 (hihat_meta.index + 1)]).flatten

def hihat_pat : Pattern := applyWrites (Pattern.new "HiHat Pattern" 32 1) hihat_pat_writes

/-- The project written to `layer2_rhythm_section.sunvox`. -/
def proj : Project := pc.attachAll [kick_pat, hihat_pat]

end CM5

/-! Layer 2b: harmonic section -/

namespace CM6

def p0 : Project := { name := "Harmonic Section", initial_bpm := 125 }

def bass_metaS := p0.new_module MType.AnalogGenerator "BASS (Load layer1_bass.sunvox here)"
  [("waveform", Enc.sin), ("volume", 220), ("x", 256), ("y", 200),
   ("color_r", 100), ("color_g", 150), ("color_b", 255)]
def bass_meta : Module := bass_metaS.1
def p1 : Project := bass_metaS.2

def chords_metaS := p1.new_module MType.Fm "CHORDS (Load layer1_chords.sunvox here)"
  [("c_volume", 180), ("m_volume", 100), ("x", 256), ("y", 320),
   ("color_r", 180), ("color_g", 140), ("color_b", 255)]
def chords_meta : Module := chords_metaS.1
def p2 : Project := chords_metaS.2

def harmonic_mixS := p2.new_module MType.Amplifier "Harmonic Mix"
  [("volume", 256), ("x", 450), ("y", 260),
   ("color_r", 200), ("color_g", 200), ("color_b", 200)]
def harmonic_mix : Module := harmonic_mixS.1
def p3 : Project := harmonic_mixS.2

/-- `bass_meta >> harmonic_mix >> output`, then `chords_meta >> harmonic_mix >> output`. -/
def pc : Project := p3.connectAll
  [(bass_meta.index, harmonic_mix.index), (harmonic_mix.index, 0),
   (chords_meta.index, harmonic_mix.index), (harmonic_mix.index, 0)]

def bass_pat_writes : List CellWrite :=
  [CellWrite.setNote 0 0 (NoteField.on NOTE.A2), CellWrite.setVel 0 0 100,
   CellWrite.setModule 0 0 (bass_meta.index + 1)]

def bass_pat : Pattern := applyWrites (Pattern.new "Bass A" 32 1) bass_pat_writes

def chord_pat_writes : List CellWrite :=
  [CellWrite.setNote 0 0 (NoteField.on NOTE.A3), CellWrite.setVel 0 0 80,
   CellWrite.setModule 0 0 (chords_meta.index + 1),
   CellWrite.setNote 0 1 (NoteField.on NOTE.C4), CellWrite.setVel 0 1 75,
   CellWrite.setModule 0 1 (chords_meta.index + 1),
   CellWrite.setNote 0 2 (NoteField.on NOTE.E4), CellWrite.setVel 0 2 75,
   CellWrite.setModule 0 2 (chords_meta.index + 1)]

def chord_pat : Pattern := applyWrites (Pattern.new "Am Chord" 32 3) chord_pat_writes

/-- The project written to `layer2_harmonic_section.sunvox`. -/
def proj : Project := pc.attachAll [bass_pat, chord_pat]

end CM6

/-! Layer 3: final track -/

namespace CM7

def p0 : Project := { name := "Modular House Track - Layer 3", initial_bpm := 125 }

def rhythm_metaS := p0.new_module MType.Amplifier
  "RHYTHM SECTION (Load layer2_rhythm_section.sunvox)"
  [("volume", 256), ("x", 200), ("y", 200),
   ("color_r", 255), ("color_g", 150), ("color_b", 150)]
def rhythm_meta : Module := rhythm_metaS.1
def p1 : Project := rhythm_metaS.2

def harmonic_metaS := p1.new_module MType.Amplifier
  "HARMONIC SECTION (Load layer2_harmonic_section.sunvox)"
  [("volume", 230), ("x", 200), ("y", 350),
   ("color_r", 150), ("color_g", 180), ("color_b", 255)]
def harmonic_meta : Module := harmonic_metaS.1
def p2 : Project := harmonic_metaS.2

def master_compS := p2.new_module MType.Compressor "Master Glue"
  [("volume", 256), ("threshold", 200), ("slope", 0), ("attack", 10), ("release", 150),
   ("x", 450), ("y", 275), ("color_r", 255), ("color_g", 255), ("color_b", 150)]
def master_comp : Module := master_compS.1
def p3 : Project := master_compS.2

/-- `rhythm_meta >> master_comp >> output`, then `harmonic_meta >> master_comp >> output`. -/
def pc : Project := p3.connectAll
  [(rhythm_meta.index, master_comp.index), (master_comp.index, 0),
   (harmonic_meta.index, master_comp.index), (master_comp.index, 0)]

def track_pattern_writes : List CellWrite :=
  [CellWrite.setNote 0 0 (NoteField.on NOTE.C5), CellWrite.setVel 0 0 100,
   CellWrite.setModule 0 0 (rhythm_meta.index + 1),
   CellWrite.setNote 0 1 (NoteField.on NOTE.C5), CellWrite.setVel 0 1 100,
   CellWrite.setModule 0 1 (harmonic_meta.index + 1)]

def track_pattern : Pattern := applyWrites (Pattern.new "Full Track" 128 2) track_pattern_writes

/-- The project written to `layer3_final_track.sunvox`. -/
def proj : Project := pc.attachAll [track_pattern]

end CM7

/-! ### Collections of the generated artefacts -/

/-- Every project built by the three scripts, in construction order. -/
def allProjects : List Project :=
  [BH.proj, GE1.proj, GE2.proj, GE3.proj, GE4.proj, GE5.proj, GE6.proj,
   CM1.proj, CM2.proj, CM3.proj, CM4.proj, CM5.proj, CM6.proj, CM7.proj]

/-- Every pattern attached to any generated project. -/
def allPatterns : List Pattern := (allProjects.map Project.patterns).flatten

/-! ### File-writing model (claims C6 and C7) -/

/-- The single `p.write_to(f)` call of `basic_house_track.py`, with its
hard-coded path. -/
def basic_house_writes : List (String × Project) :=
  [("/home/user/Way-of-SunVox/basic_house_track.sunvox", BH.proj)]

/-- The six `write_to` calls of `generate_examples.py`; each path is
`os.path.join(script_dir, name)`. -/
def generate_examples_writes (script_dir : String) : List (String × Project) :=
  [(script_dir ++ "/sidechain_basic_edm.sunvox", GE1.proj),
   (script_dir ++ "/sidechain_vocal_clarity.sunvox", GE2.proj),
   (script_dir ++ "/sidechain_rhythmic_gate.sunvox", GE3.proj),
   (script_dir ++ "/sidechain_multiband.sunvox", GE4.proj),
   (script_dir ++ "/sidechain_inverse.sunvox", GE5.proj),
   (script_dir ++ "/sidechain_lfo_fake.sunvox", GE6.proj)]

def output_dir : String := "/home/user/Way-of-SunVox/modular_construction"

/-- The seven `write_to` calls of `create_modular_construction.py`, all
under the hard-coded `output_dir`. -/
def modular_writes : List (String × Project) :=
  [(output_dir ++ "/layer1_kick.sunvox", CM1.proj),
   (output_dir ++ "/layer1_bass.sunvox", CM2.proj),
   (output_dir ++ "/layer1_chords.sunvox", CM3.proj),
   (output_dir ++ "/layer1_hihat.sunvox", CM4.proj),
   (output_dir ++ "/layer2_rhythm_section.sunvox", CM5.proj),
   (output_dir ++ "/layer2_harmonic_section.sunvox", CM6.proj),
   (output_dir ++ "/layer3_final_track.sunvox", CM7.proj)]

/-- The observable inputs a process run could in principle read.  The
scripts read none of them except (in `generate_examples.py`) the directory
the script file sits in. -/
structure Env where
  argv : List String
  vars : List (String × String)
  cwd : String
  script_dir : String

/-- A run of `basic_house_track.py`: serialize the built project with the
external library's routine and emit (path, bytes) pairs.  The environment
is never consulted. -/
def run_basic_house (serialize : Project → List Nat) (_e : Env) :
    List (String × List Nat) :=
  basic_house_writes.map fun w => (w.1, serialize w.2)

/-- A run of `generate_examples.py`: only `script_dir` is consulted. -/
def run_generate_examples (serialize : Project → List Nat) (e : Env) :
    List (String × List Nat) :=
  (generate_examples_writes e.script_dir).map fun w => (w.1, serialize w.2)

/-- A run of `create_modular_construction.py`: the environment is never
consulted. -/
def run_modular (serialize : Project → List Nat) (_e : Env) :
    List (String × List Nat) :=
  modular_writes.map fun w => (w.1, serialize w.2)

/-! ### Connection-graph reachability (claim C1) -/

/-- One expansion step: add every edge target whose source is already in
the set. -/
def reachStep (conns : List (Nat × Nat)) (s : List Nat) : List Nat :=
  (s ++ conns.filterMap fun e => if e.1 ∈ s then some e.2 else none).dedup

def reachSet (conns : List (Nat × Nat)) (src : Nat) : Nat → List Nat
  | 0 => [src]
  | fuel + 1 => reachStep conns (reachSet conns src fuel)

/-- Is there a connection path from module index `src` to module index
`dst`?  Fuel equal to the module count covers every simple path. -/
def reaches (p : Project) (src dst : Nat) : Bool :=
  decide (dst ∈ reachSet p.conns src p.modules.length)

/-- A module used purely as a control source, per the claim: a Sound2Ctl,
or a silent trigger created with `vol=0`. -/
def isControl (mo : Module) : Bool :=
  decide (mo.mtype = MType.Sound2Ctl) || decide (("vol", (0 : Int)) ∈ mo.params)

/-- The amended C1 invariant for one project: control modules never reach
the Output sink; every Sound2Ctl has an incoming trigger edge and no
outgoing edge; a silent (`vol=0`) trigger feeds some Sound2Ctl; every
other non-Output module reaches the Output sink. -/
def controlRoutingOK (p : Project) : Bool :=
  p.modules.all fun mo =>
    if isControl mo then
      !(reaches p mo.index 0) &&
      (if decide (mo.mtype = MType.Sound2Ctl) then
        (p.conns.any fun e => decide (e.2 = mo.index)) &&
        (p.conns.all fun e => !(decide (e.1 = mo.index)))
       else
        p.conns.any fun e =>
          decide (e.1 = mo.index) &&
          p.modules.any fun n =>
            decide (n.index = e.2) && decide (n.mtype = MType.Sound2Ctl))
    else
      decide (mo.index = 0) || reaches p mo.index 0

/-! ### Pattern-cell checks (claims C2, C3, C5, C10) -/

/-- C2: a cell is untouched, or its target field is a live 1-based module
reference within the same project. -/
def cellRefOK (p : Project) (c : Cell) : Bool :=
  decide (c = defaultCell) ||
  (!(decide (c.module = 0)) && p.modules.any fun mo => decide (c.module = mo.index + 1))

def projectRefsOK (p : Project) : Bool :=
  p.patterns.all fun pat => pat.data.all fun row => row.all (cellRefOK p)

def isNoteOn (c : Cell) : Bool :=
  match c.note with
  | NoteField.on _ => true
  | _ => false

/-- C3: a 32-line single-track pattern whose only non-empty cells are
note-ons at lines 0, 8, 16 and 24 of track 0. -/
def fourOnFloorOK (pat : Pattern) : Bool :=
  decide (pat.lines = 32) && decide (pat.tracks = 1) &&
  decide (pat.data.length = 32) &&
  (List.range 32).all fun l =>
    decide ((pat.data.getD l []).length = 1) &&
    (if l = 0 ∨ l = 8 ∨ l = 16 ∨ l = 24 then
       isNoteOn ((pat.data.getD l []).getD 0 defaultCell)
     else decide ((pat.data.getD l []).getD 0 defaultCell = defaultCell))

/-- The generated four-on-the-floor kick patterns (every 32-line, 1-track
kick pattern placed on lines 0/8/16/24 across the three scripts). -/
def kickPatterns : List Pattern :=
  [BH.kick_pattern, BH.intro_kick, GE1.kick_pattern, GE4.mb_kick_pattern,
   GE5.inv_kick_pattern, CM1.kick_pattern, CM5.kick_pat]

/-- The cells of track `t`, line by line. -/
def trackCells (pat : Pattern) (t : Nat) : List Cell :=
  pat.data.filterMap fun row => row.get? t

/-- C5 as literally stated: scanning track cells that target module `m`,
no note-on may follow another note-on without a note-off in between. -/
def retriggerScan (m : Nat) (opened : Bool) : List Cell → Bool
  | [] => true
  | c :: rest =>
      if c.module = m then
        match c.note with
        | NoteField.on _ => if opened then false else retriggerScan m true rest
        | NoteField.off => retriggerScan m false rest
        | NoteField.empty => retriggerScan m opened rest
      else retriggerScan m opened rest

def hasEvent (c : Cell) : Bool := !(decide (c.note = NoteField.empty))

def trackMods (cells : List Cell) : List Nat :=
  (cells.filterMap fun c => if hasEvent c then some c.module else none).dedup

def strictMonoTrack (cells : List Cell) : Bool :=
  (trackMods cells).all fun m => retriggerScan m false cells

def strictMonoOK (pat : Pattern) : Bool :=
  (List.range pat.tracks).all fun t => strictMonoTrack (trackCells pat t)

def hasNoteOff (pat : Pattern) : Bool :=
  pat.data.any fun row => row.any fun c => decide (c.note = NoteField.off)

/-- C10 scan down one track: every note-off cell names the module of the
most recent note-on on that track and carries no velocity. -/
def noteOffScan (last : Option Nat) : List Cell → Bool
  | [] => true
  | c :: rest =>
      match c.note with
      | NoteField.on _ => noteOffScan (some c.module) rest
      | NoteField.off =>
          decide (last = some c.module) && decide (c.vel = none) && noteOffScan last rest
      | NoteField.empty => noteOffScan last rest

def noteOffsOK (pat : Pattern) : Bool :=
  (List.range pat.tracks).all fun t => noteOffScan none (trackCells pat t)

/-! ### Note activity (claim C4)

Modelled from the spec: the playback engine that interprets note-off
commands lives in the external tool; per spec sections 3 and 8, a note-on
starts a note on its track/module and a later note-off command terminates
it, so a note is active at a line exactly when the last note event at or
before that line is a note-on. -/

/-- The note events at or before line `l` on track `t` that target module
`m`. -/
def trackEvents (pat : Pattern) (t m l : Nat) : List NoteField :=
  (pat.data.take (l + 1)).filterMap fun row =>
    match row.get? t with
    | some c => if c.module = m ∧ c.note ≠ NoteField.empty then some c.note else none
    | none => none

/-- Is the note for module `m` on track `t` active at line `l`? -/
def noteActive (pat : Pattern) (t m l : Nat) : Bool :=
  match (trackEvents pat t m l).getLast? with
  | some (NoteField.on _) => true
  | _ => false

/-! ### Write bounds (claim C9) -/

/-- The declared shape of one pattern together with every cell write the
script performs on it. -/
structure PatternSpec where
  lines : Nat
  tracks : Nat
  writes : List CellWrite

def specInBounds (s : PatternSpec) : Bool :=
  s.writes.all fun w => decide (w.line < s.lines) && decide (w.track < s.tracks)

/-- Every pattern any script writes, with its declared shape and its full
write list. -/
def allPatternSpecs : List PatternSpec :=
  [⟨32, 1, BH.kick_pattern_writes⟩, ⟨32, 1, BH.hihat_pattern_writes⟩,
   ⟨32, 1, BH.clap_pattern_writes⟩, ⟨128, 1, BH.bass_pattern_writes⟩,
   ⟨128, 3, BH.chord_pattern_writes⟩, ⟨64, 1, BH.lead_pattern_writes⟩,
   ⟨32, 1, BH.intro_kick_writes⟩,
   ⟨32, 1, GE1.kick_pattern_writes⟩, ⟨32, 1, GE1.bass_pattern_writes⟩,
   ⟨64, 1, GE2.trigger_pattern_writes⟩, ⟨64, 1, GE2.pad_pattern_writes⟩,
   ⟨16, 1, GE3.hihat_pattern_writes⟩, ⟨16, 1, GE3.gatepad_pattern_writes⟩,
   ⟨32, 1, GE4.mb_kick_pattern_writes⟩, ⟨32, 1, GE4.mb_pad_pattern_writes⟩,
   ⟨32, 1, GE5.inv_kick_pattern_writes⟩, ⟨32, 1, GE6.lfo_bass_pattern_writes⟩,
   ⟨32, 1, CM1.kick_pattern_writes⟩, ⟨32, 1, CM2.bass_pattern_writes⟩,
   ⟨32, 3, CM3.chord_pattern_writes⟩, ⟨32, 1, CM4.hihat_pattern_writes⟩,
   ⟨32, 1, CM5.kick_pat_writes⟩, ⟨32, 1, CM5.hihat_pat_writes⟩,
   ⟨32, 1, CM6.bass_pat_writes⟩, ⟨32, 3, CM6.chord_pat_writes⟩,
   ⟨128, 2, CM7.track_pattern_writes⟩]

/-! ### Module-index invariant (claim C8) -/

/-- Indices are exactly the creation positions: nothing is ever reused and
nothing ever moves. -/
def projInv (p : Project) : Prop :=
  p.modules.map Module.index = List.range p.modules.length

instance (p : Project) : Decidable (projInv p) :=
  inferInstanceAs (Decidable (p.modules.map Module.index = List.range p.modules.length))

/-! ## Theorems -/

/-- C1, counterexample: in the basic-EDM sidechain project the Sound2Ctl
module `s2c` has no connection edge to its consumer, the sidechain
compressor `comp` — the claimed control edge does not exist. -/
theorem claim_C1_counterexample :
    (GE1.proj.conns.any fun e =>
      decide (e.1 = GE1.s2c.index) && decide (e.2 = GE1.comp.index)) = false := by
  decide

/-- C1, amended: in every generated project, every control-source module
(each Sound2Ctl and the vol=0 trigger) has no connection path to the
Output sink; every Sound2Ctl has an incoming trigger edge but no outgoing
edge at all (in particular none to the compressor or amplifier it is
meant to modulate); the silent trigger feeds a Sound2Ctl; and every other
module has a connection path to the Output sink. -/
theorem claim_C1_amended : allProjects.all controlRoutingOK = true := by decide

/-- C2: in every generated project, every touched pattern cell's target
module field is `index + 1` for a module existing in the same project —
hence never 0 and never dangling. -/
theorem claim_C2 : allProjects.all projectRefsOK = true := by decide

/-- C3: every generated four-on-the-floor kick pattern is 32 lines by one
track, carries note-on events exactly at lines 0, 8, 16 and 24 of track 0,
and every other cell is empty. -/
theorem claim_C3 : kickPatterns.all fourOnFloorOK = true := by decide

theorem c4_range_check :
    ((List.range 32).all fun l =>
      decide (noteActive GE1.bass_pattern 0 (GE1.bass.index + 1) l = decide (l < 30)) &&
      decide (noteActive CM2.bass_pattern 0 (CM2.bass.index + 1) l = decide (l < 30))) =
      true := by
  decide

theorem noteActive_stable (pat : Pattern) (t m l n : Nat) (hd : pat.data.length ≤ n + 1)
    (hl : n ≤ l) : noteActive pat t m l = noteActive pat t m n := by
  unfold noteActive trackEvents
  rw [List.take_of_length_le (Nat.le_trans hd (by omega)), List.take_of_length_le hd]

/-- C4: in the generated 32-line bass patterns with a note-on at line 0
and a note-off (same target module) at line 30 on the same track, the
note is active at exactly the lines below 30. -/
theorem claim_C4 : ∀ l : Nat,
    noteActive GE1.bass_pattern 0 (GE1.bass.index + 1) l = decide (l < 30) ∧
    noteActive CM2.bass_pattern 0 (CM2.bass.index + 1) l = decide (l < 30) := by
  intro l
  by_cases h : l < 32
  · have h1 := List.all_eq_true.mp c4_range_check l (List.mem_range.mpr h)
    rw [Bool.and_eq_true, decide_eq_true_eq, decide_eq_true_eq] at h1
    exact h1
  · have e1 := noteActive_stable GE1.bass_pattern 0 (GE1.bass.index + 1) l 31
      (by decide) (by omega)
    have e2 := noteActive_stable CM2.bass_pattern 0 (CM2.bass.index + 1) l 31
      (by decide) (by omega)
    rw [e1, e2, decide_eq_false (by omega : ¬ l < 30)]
    exact ⟨by decide, by decide⟩

/-- C5, counterexample: the four-on-the-floor kick pattern of
`basic_house_track.py` has note-ons at lines 0 and 8 on track 0 targeting
the same module with no intervening note-off, so the claimed
no-retrigger-without-note-off property fails on the generated data. -/
theorem claim_C5_counterexample : strictMonoOK BH.kick_pattern = false := by decide

/-- C5, amended: in every generated pattern that contains any explicit
note-off event (the sustained bass lines and the lead melody), no two
note-on events on the same track targeting the same module occur without
an intervening note-off; the purely percussive, chord and pad patterns
instead place consecutive note-ons with no note-off, relying on the
tracker's retrigger and release semantics. -/
theorem claim_C5_amended :
    (allPatterns.filter hasNoteOff).all strictMonoOK = true := by decide

/-- C6, counterexample: the sidechain-examples script performs six file
writes, not exactly one. -/
theorem claim_C6_counterexample :
    ¬ (generate_examples_writes "/tmp").length = 1 := by decide

/-- C6, amended: each generator script writes one binary project file per
project it constructs — one for the house track, six for the sidechain
examples, seven for the modular-construction tutorial — each to a fixed
or script-directory-computed path. -/
theorem claim_C6_amended :
    basic_house_writes.length = 1 ∧
    (∀ d : String, (generate_examples_writes d).length = 6) ∧
    modular_writes.length = 7 :=
  ⟨rfl, fun _ => rfl, rfl⟩

/-- C7: the scripts consume no argv, no environment variables, no config
and no working directory — with the same script location and the same
external serialization routine, two runs produce byte-for-byte identical
(path, contents) outputs. -/
theorem claim_C7 : ∀ (serialize : Project → List Nat) (e1 e2 : Env),
    e1.script_dir = e2.script_dir →
    run_basic_house serialize e1 = run_basic_house serialize e2 ∧
    run_generate_examples serialize e1 = run_generate_examples serialize e2 ∧
    run_modular serialize e1 = run_modular serialize e2 := by
  intro s e1 e2 h
  refine ⟨rfl, ?_, rfl⟩
  unfold run_generate_examples
  rw [h]

/-- Witness for C7 at two concrete environments that differ in argv,
variables and working directory but share the script directory. -/
theorem claim_C7_witness :
    run_basic_house (fun _ => [7]) (Env.mk ["x"] [("HOME", "/h")] "/c1" "/sd") =
      run_basic_house (fun _ => [7]) (Env.mk [] [] "/c2" "/sd") ∧
    run_generate_examples (fun _ => [7]) (Env.mk ["x"] [("HOME", "/h")] "/c1" "/sd") =
      run_generate_examples (fun _ => [7]) (Env.mk [] [] "/c2" "/sd") ∧
    run_modular (fun _ => [7]) (Env.mk ["x"] [("HOME", "/h")] "/c1" "/sd") =
      run_modular (fun _ => [7]) (Env.mk [] [] "/c2" "/sd") :=
  claim_C7 (fun _ => [7]) (Env.mk ["x"] [("HOME", "/h")] "/c1" "/sd")
    (Env.mk [] [] "/c2" "/sd") rfl

/-- C8: module indices are the creation positions: whenever the index
invariant holds, `new_module` hands out an index distinct from every
previously assigned one, preserves the invariant, and leaves every
existing module (hence every existing index) unchanged; and the invariant
does hold for all fourteen generated projects. -/
theorem claim_C8 :
    (∀ (p : Project) (t : MType) (nm : String) (ps : List (String × Int)),
      projInv p →
        (p.new_module t nm ps).1.index ∉ p.modules.map Module.index ∧
        projInv (p.new_module t nm ps).2 ∧
        (p.new_module t nm ps).2.modules.take p.modules.length = p.modules) ∧
    allProjects.all (fun p => decide (projInv p)) = true := by
  constructor
  · intro p t nm ps h
    unfold projInv at h
    refine ⟨?_, ?_, ?_⟩
    · have hidx : (p.new_module t nm ps).1.index = p.modules.length := rfl
      rw [hidx, h]
      simp
    · unfold projInv Project.new_module
      simp [List.range_succ, h]
    · exact List.take_left p.modules _
  · decide

/-- Witness for C8 at the basic-EDM sidechain project. -/
theorem claim_C8_witness :
    projInv GE1.proj ∧
    ((GE1.proj.new_module MType.Kicker "K" []).1.index ∉
        GE1.proj.modules.map Module.index ∧
      projInv (GE1.proj.new_module MType.Kicker "K" []).2 ∧
      (GE1.proj.new_module MType.Kicker "K" []).2.modules.take
          GE1.proj.modules.length = GE1.proj.modules) :=
  ⟨by decide, claim_C8.1 GE1.proj MType.Kicker "K" [] (by decide)⟩

/-- C9: every pattern-cell write any script performs is in bounds for the
pattern's declared line and track counts. -/
theorem claim_C9 : allPatternSpecs.all specInBounds = true := by decide

/-- C10: every note-off cell written by the scripts names the module of
the most recent note-on on the same track and sets no velocity. -/
theorem claim_C10 : allPatterns.all noteOffsOK = true := by decide

end WayOfSunVox
